import Mathlib

/-!
# Verification of the BelleShop demand-forecasting pipeline

Shallow embedding of the forecasting core of the BelleShop backend
(`backend/forecasting/ml_utils.py` and `backend/forecasting/views.py`):
the time-series builder (`prepare_training_data`), the model trainer
(`train_linear_regression_model`), the autoregressive forecaster
(`predict_demand` plus the rollout loop of `GenerateForecastView.post`),
and the recommendation engine (`generate_stock_recommendation`).

Modelling conventions:
* Calendar dates are proleptic-Gregorian day ordinals (`ℕ`), as in Python's
  `date.toordinal()` (ordinal 1 = 0001-01-01, a Monday).
* Python `float` arithmetic at the spots embedded here (`x * 0.8`,
  `x * 1.2`, `x * 0.2`, `x / 30`, `x / p`) agrees with exact rational
  arithmetic for all in-range integer inputs, so floats are embedded as `ℚ`.
* Python `int(x)` on a float truncates toward zero; it is embedded as
  `truncQ`.
* Opaque library components (the fitted sklearn scaler and regressor) are
  embedded as function parameters; a prediction step that raises is a
  parameter returning `none`.
-/

namespace BelleShop

attribute [local semireducible] Rat.add Rat.sub Rat.mul Rat.inv

/-- Python `int()` applied to a (rational-valued) float: truncation toward
zero. -/
def truncQ (q : ℚ) : ℤ := if 0 ≤ q then ⌊q⌋ else -⌊-q⌋

/-- `date.weekday()` of a proleptic-Gregorian ordinal (Monday = 0). -/
def dayOfWeek (o : ℕ) : ℕ := (o + 6) % 7

/-- `(month, day)` of a proleptic-Gregorian day ordinal, following the
standard civil-from-days conversion (as computed by Python's `datetime` and
pandas `dt.month` / `dt.day`). -/
def civilMonthDay (o : ℕ) : ℕ × ℕ :=
  let n := o + 305
  let doe := n % 146097
  let yoe := (doe - doe / 1460 + doe / 36524 - doe / 146096) / 365
  let doy := doe - (365 * yoe + yoe / 4 - yoe / 100)
  let mp := (5 * doy + 2) / 153
  let d := doy - (153 * mp + 2) / 5 + 1
  let m := if mp < 10 then mp + 3 else mp - 9
  (m, d)

/-- `1 if day_of_week in [5, 6] else 0`. -/
def isWeekendFlag (o : ℕ) : ℕ :=
  if dayOfWeek o = 5 ∨ dayOfWeek o = 6 then 1 else 0

section RecommendationEngine

/-- Priority levels of a stock recommendation. -/
inductive Priority where
  | CRITICAL
  | HIGH
  | MEDIUM
  | LOW
deriving DecidableEq, Repr

/-- Recommended actions of a stock recommendation. -/
inductive Action where
  | URGENT_ORDER
  | ORDER_SOON
  | REORDER
  | MONITOR
deriving DecidableEq, Repr

/-- The slice of the `Product` model object read by
`generate_stock_recommendation`.  `current_stock = none` models a product
object lacking the attribute (so that `product.current_stock` raises
`AttributeError`); `reorder_point = none` models `getattr(product,
'reorder_point', None)` returning `None`. -/
structure ProductObj where
  current_stock : Option ℤ
  reorder_point : Option ℤ
deriving DecidableEq, Repr

/-- Recommendation record returned by `generate_stock_recommendation`. -/
structure Recommendation where
  priority : Priority
  action : Action
  recommended_order_quantity : ℤ
  reason : String
  days_until_stockout : Option ℤ
deriving DecidableEq, Repr

/-- `ml_utils.generate_stock_recommendation(product, forecast)`.
The `forecast` argument is represented by its only field read here,
`forecast.predicted_demand`.  The `except` branch of the source is reached
exactly when the `product` object lacks `current_stock`. -/
def generate_stock_recommendation (product : ProductObj)
    (predicted_demand : ℤ) : Recommendation :=
  match product.current_stock with
  | none =>
      { priority := .LOW
        action := .MONITOR
        recommended_order_quantity := 0
        reason := "Unable to generate recommendation"
        days_until_stockout := none }
  | some current_stock =>
      let reorder_point : ℤ :=
        match product.reorder_point with
        | some r => r
        | none => truncQ ((current_stock : ℚ) * (1 / 5))
      let days_until_stockout : ℚ :=
        if predicted_demand > 0 then
          (current_stock : ℚ) / (predicted_demand : ℚ)
        else
          999
      let priority : Priority :=
        if days_until_stockout < 7 then .CRITICAL
        else if days_until_stockout < 14 then .HIGH
        else if current_stock < reorder_point then .MEDIUM
        else .LOW
      let action : Action :=
        if days_until_stockout < 7 then .URGENT_ORDER
        else if days_until_stockout < 14 then .ORDER_SOON
        else if current_stock < reorder_point then .REORDER
        else .MONITOR
      let safety_stock : ℤ := predicted_demand * 7
      let recommended_order : ℤ :=
        max 0 (predicted_demand * 30 - current_stock + safety_stock)
      let reason : String :=
        "Current stock: " ++ toString current_stock
          ++ ", Predicted demand: " ++ toString predicted_demand ++ "/day"
          ++ (if days_until_stockout < 999 then
                ", Days until stockout: " ++ toString (truncQ days_until_stockout)
              else "")
      { priority := priority
        action := action
        recommended_order_quantity := recommended_order
        reason := reason
        days_until_stockout :=
          if days_until_stockout < 999 then some (truncQ days_until_stockout)
          else none }

end RecommendationEngine

example : truncQ (37 / 10) = 3 := by decide
example : truncQ (-(5 : ℚ) / 2) = -2 := by decide
example : civilMonthDay 730120 = (1, 1) := by decide
example : dayOfWeek 1 = 0 := by decide
example :
    (generate_stock_recommendation ⟨some 50, none⟩ 10).priority
      = .CRITICAL := by decide
example :
    (generate_stock_recommendation ⟨some 50, none⟩ 10).recommended_order_quantity
      = 320 := by decide
example :
    (generate_stock_recommendation ⟨some 999, none⟩ 1).days_until_stockout
      = none := by decide

theorem truncQ_of_nonneg {q : ℚ} (h : 0 ≤ q) : truncQ q = ⌊q⌋ := if_pos h

theorem defaultThr_le (s : ℕ) : truncQ ((s : ℚ) * (1 / 5)) ≤ (s : ℤ) := by
  rw [truncQ_of_nonneg (by positivity)]
  have h2 := Int.floor_le ((s : ℚ) * (1 / 5))
  have hs : (0 : ℚ) ≤ (s : ℚ) := by positivity
  have : ((⌊(s : ℚ) * (1 / 5)⌋ : ℤ) : ℚ) ≤ ((s : ℤ) : ℚ) := by push_cast; linarith
  exact_mod_cast this

theorem not_stock_lt_defaultThr (s : ℕ) :
    ¬ ((s : ℤ) < truncQ ((s : ℚ) * (1 / 5))) := not_lt.mpr (defaultThr_le s)

theorem defaultThr_le' (s : ℕ) : truncQ ((s : ℚ) * 5⁻¹) ≤ (s : ℤ) := by
  have h := defaultThr_le s
  rw [one_div] at h
  exact h

theorem not_stock_lt_defaultThr' (s : ℕ) :
    ¬ ((s : ℤ) < truncQ ((s : ℚ) * 5⁻¹)) := not_lt.mpr (defaultThr_le' s)

theorem not_stock_lt_defaultThrQ (s : ℕ) : ¬ ((s : ℚ) < (s : ℚ) / 5) := by
  have hs : (0 : ℚ) ≤ (s : ℚ) := by positivity
  intro h
  linarith

/-- C1: with current stock `s ≥ 0`, predicted demand `p ≥ 0`, and a reorder
threshold defaulting to 20% of current stock, the recommendation is
CRITICAL/URGENT_ORDER iff `p > 0` and `s/p < 7`, HIGH/ORDER_SOON iff `p > 0`
and `7 ≤ s/p < 14`, MEDIUM/REORDER iff neither holds and `s` is below the
threshold, and LOW/MONITOR otherwise; `recommended_order_quantity` equals
`max 0 (30*p - s + 7*p)` and is never negative; and `s = 50`, `p = 10`
yields CRITICAL/URGENT_ORDER with `recommended_order_quantity = 320`. -/
theorem C1_recommendation_rule_table (s p : ℕ) (rp : Option ℤ) :
    (generate_stock_recommendation ⟨some (s : ℤ), rp⟩ (p : ℤ)).recommended_order_quantity
      = max 0 (30 * (p : ℤ) - (s : ℤ) + 7 * (p : ℤ)) ∧
    0 ≤ (generate_stock_recommendation ⟨some (s : ℤ), rp⟩ (p : ℤ)).recommended_order_quantity ∧
    (generate_stock_recommendation ⟨some 50, none⟩ 10).priority = .CRITICAL ∧
    (generate_stock_recommendation ⟨some 50, none⟩ 10).action = .URGENT_ORDER ∧
    (generate_stock_recommendation ⟨some 50, none⟩ 10).recommended_order_quantity
      = 320 ∧
    (((generate_stock_recommendation ⟨some (s : ℤ), rp⟩ (p : ℤ)).priority = .CRITICAL ∧
        (generate_stock_recommendation ⟨some (s : ℤ), rp⟩ (p : ℤ)).action = .URGENT_ORDER) ↔
        0 < p ∧ (s : ℚ) / (p : ℚ) < 7) ∧
    (((generate_stock_recommendation ⟨some (s : ℤ), rp⟩ (p : ℤ)).priority = .HIGH ∧
        (generate_stock_recommendation ⟨some (s : ℤ), rp⟩ (p : ℤ)).action = .ORDER_SOON) ↔
        0 < p ∧ 7 ≤ (s : ℚ) / (p : ℚ) ∧ (s : ℚ) / (p : ℚ) < 14) ∧
    (((generate_stock_recommendation ⟨some (s : ℤ), rp⟩ (p : ℤ)).priority = .MEDIUM ∧
        (generate_stock_recommendation ⟨some (s : ℤ), rp⟩ (p : ℤ)).action = .REORDER) ↔
        ¬(0 < p ∧ (s : ℚ) / (p : ℚ) < 14) ∧
          (s : ℚ) < (match rp with | some v => (v : ℚ) | none => (s : ℚ) / 5)) ∧
    (((generate_stock_recommendation ⟨some (s : ℤ), rp⟩ (p : ℤ)).priority = .LOW ∧
        (generate_stock_recommendation ⟨some (s : ℤ), rp⟩ (p : ℤ)).action = .MONITOR) ↔
        ¬(0 < p ∧ (s : ℚ) / (p : ℚ) < 14) ∧
          ¬((s : ℚ) < (match rp with | some v => (v : ℚ) | none => (s : ℚ) / 5))) := by
  refine ⟨?_, ?_, by decide, by decide, by decide, ?_⟩
  · show (generate_stock_recommendation ⟨some (s : ℤ), rp⟩ (p : ℤ)).recommended_order_quantity = _
    unfold generate_stock_recommendation
    dsimp only
    congr 1
    ring
  · show 0 ≤ (generate_stock_recommendation ⟨some (s : ℤ), rp⟩ (p : ℤ)).recommended_order_quantity
    unfold generate_stock_recommendation
    dsimp only
    exact le_max_left _ _
  unfold generate_stock_recommendation
  rcases Nat.eq_zero_or_pos p with hp | hp
  · subst hp
    rcases rp with _ | v
    · norm_num [not_stock_lt_defaultThr, not_stock_lt_defaultThrQ]
      decide
    · norm_num
      by_cases hv : (s : ℤ) < v
      · have hvq : (s : ℚ) < (v : ℚ) := by exact_mod_cast hv
        simp [hv, hvq]
      · have hvq : (v : ℚ) ≤ (s : ℚ) := by exact_mod_cast not_lt.mp hv
        simp [hv, hvq, not_lt.mpr hvq]
  · have hpz : (0 : ℤ) < (p : ℤ) := by exact_mod_cast hp
    simp only [gt_iff_lt, hpz, if_pos, hp, true_and]
    push_cast
    by_cases h7 : (s : ℚ) / (p : ℚ) < 7
    · have h14 : (s : ℚ) / (p : ℚ) < 14 := by linarith
      simp [h7, h14, not_le.mpr h14, not_le.mpr h7]
    · by_cases h14 : (s : ℚ) / (p : ℚ) < 14
      · simp [h7, h14, not_lt.mp h7]
      · rcases rp with _ | v
        · simp [h7, h14, not_stock_lt_defaultThr', not_stock_lt_defaultThrQ,
            defaultThr_le', not_lt.mp h14]
        · by_cases hv : (s : ℤ) < v
          · have hvq : (s : ℚ) < (v : ℚ) := by exact_mod_cast hv
            simp [h7, h14, hv, hvq, not_lt.mp h14]
          · have hvq : (v : ℚ) ≤ (s : ℚ) := by exact_mod_cast not_lt.mp hv
            simp [h7, h14, hv, hvq, not_lt.mpr hvq, not_lt.mp h14]

/-- C2 counterexample: with `current_stock = 999` and `predicted_demand = 1`
the code reports `days_until_stockout = none` even though
`predicted_demand > 0` (the computed `999.0` fails the `< 999` guard), so
`days_until_stockout` is not null exactly when `predicted_demand` is 0. -/
theorem C2_counterexample :
    (0 : ℤ) < 1 ∧
    (generate_stock_recommendation ⟨some 999, none⟩ 1).days_until_stockout
      = none := by
  exact ⟨by decide, by decide⟩

/-- C2 (amended): `days_until_stockout` is null exactly when
`predicted_demand = 0` or `current_stock / predicted_demand ≥ 999`; when
`predicted_demand > 0` and the ratio is below 999 it is the truncated
integer `⌊current_stock / predicted_demand⌋`. -/
theorem C2_days_until_stockout_amended (s p : ℕ) (rp : Option ℤ) :
    (generate_stock_recommendation ⟨some (s : ℤ), rp⟩ (p : ℤ)).days_until_stockout
      = if 0 < p ∧ (s : ℚ) / (p : ℚ) < 999 then
          some (truncQ ((s : ℚ) / (p : ℚ)))
        else none := by
  unfold generate_stock_recommendation
  rcases Nat.eq_zero_or_pos p with hp | hp
  · subst hp
    norm_num
  · have hpz : (0 : ℤ) < (p : ℤ) := by exact_mod_cast hp
    simp only [hpz, if_pos, gt_iff_lt, hp, true_and]
    push_cast
    rfl

/-- C10: when the product object lacks `current_stock` (the embedded
exception inside `generate_stock_recommendation`), the exception does not
propagate: the function returns the fixed record
`{LOW, MONITOR, 0, null, "Unable to generate recommendation"}`, which has
the same shape as a genuine low-priority recommendation (such as the one
produced by `current_stock = 100`, `predicted_demand = 5`,
`reorder_point = 30`). -/
theorem C10_exception_fallback_record (rp : Option ℤ) (p : ℤ) :
    generate_stock_recommendation ⟨none, rp⟩ p =
      { priority := .LOW
        action := .MONITOR
        recommended_order_quantity := 0
        reason := "Unable to generate recommendation"
        days_until_stockout := none } ∧
    (generate_stock_recommendation ⟨some 100, some 30⟩ 5).priority = .LOW ∧
    (generate_stock_recommendation ⟨some 100, some 30⟩ 5).action = .MONITOR := by
  exact ⟨rfl, by decide, by decide⟩

section TimeSeriesBuilder

/-- Total quantity of the product sold on day `d`: the ORM aggregation
`Sum('quantity')` over the completed-sale items of that day.  `events` is
the list of completed-sale line items `(day ordinal, quantity)` for the
product. -/
def sumQtyOn (events : List (ℕ × ℕ)) (d : ℕ) : ℕ :=
  ((events.filter (fun ev => ev.1 = d)).map Prod.snd).sum

/-- `Max('created_at')` over the product's completed sales: the anchor
(end) date of the training window; `none` when the product has no sales. -/
def latestSaleDate (events : List (ℕ × ℕ)) : Option ℕ :=
  (events.map Prod.fst).max?

/-- The calendar days of the window `[s, e]`, ascending
(`pd.date_range(start, end)`). -/
def windowDays (s e : ℕ) : List ℕ :=
  (List.range (e + 1 - s)).map (fun i => s + i)

/-- The rows returned by the grouped ORM query: one `(date, total_quantity)`
row per distinct day of the window on which at least one item of the
product was sold, ordered by date. -/
def aggregatedSales (events : List (ℕ × ℕ)) (s e : ℕ) : List (ℕ × ℕ) :=
  (windowDays s e).filterMap (fun d =>
    if events.any (fun ev => ev.1 = d) then some (d, sumQtyOn events d)
    else none)

/-- The `quantity` column after reindexing the aggregated rows over the
full date range with `fill_value=0`: days with no sales become explicit
zero entries. -/
def quantitySeries (events : List (ℕ × ℕ)) (s e : ℕ) : List ℕ :=
  (windowDays s e).map (sumQtyOn events)

/-- `df['quantity'].shift(k).fillna(0)` evaluated at row `i`. -/
def lagFeature (q : List ℕ) (k i : ℕ) : ℕ :=
  if k ≤ i then q.getD (i - k) 0 else 0

/-- `df['quantity'].rolling(window=w, min_periods=1).mean()` at row `i`:
the mean of the last `min(i+1, w)` quantities up to and including row `i`. -/
def rollingMean (q : List ℕ) (w i : ℕ) : ℚ :=
  let win := (q.take (i + 1)).drop (i + 1 - w)
  (win.map (fun n => (n : ℚ))).sum / (win.length : ℚ)

/-- Row `i` of the feature matrix, in the fixed `feature_columns` order
`[day_of_week, day_of_month, month, is_weekend, lag_1, lag_7,
rolling_mean_7, rolling_mean_14]`, for the series starting at day `s`. -/
def featureRow (q : List ℕ) (s i : ℕ) : List ℚ :=
  [ (dayOfWeek (s + i) : ℚ),
    ((civilMonthDay (s + i)).2 : ℚ),
    ((civilMonthDay (s + i)).1 : ℚ),
    (isWeekendFlag (s + i) : ℚ),
    (lagFeature q 1 i : ℚ),
    (lagFeature q 7 i : ℚ),
    rollingMean q 7 i,
    rollingMean q 14 i ]

/-- `ml_utils.prepare_training_data(product, days)`.  Input: the product's
completed-sale line items.  Output `(X, y, dates)`, or `none` when the
product has never been sold (no anchor date) or when fewer than 14 distinct
days with sales lie in the window `[anchor - (days-1), anchor]`. -/
def prepare_training_data (events : List (ℕ × ℕ)) (days : ℕ) :
    Option (List (List ℚ) × List ℕ × List ℕ) :=
  match latestSaleDate events with
  | none => none
  | some e =>
      let s := e - (days - 1)
      if (aggregatedSales events s e).length < 14 then none
      else
        let q := quantitySeries events s e
        some ((List.range (windowDays s e).length).map (featureRow q s),
              q, windowDays s e)

/-- The days of the window with nonzero aggregated sales (the count the
14-day gate is claimed to test). -/
def nonzeroSaleDays (events : List (ℕ × ℕ)) (s e : ℕ) : List ℕ :=
  (windowDays s e).filter (fun d => 0 < sumQtyOn events d)

/-- 14 consecutive days of sales (2 units each) ending at day 730133. -/
def sampleSales14 : List (ℕ × ℕ) :=
  (List.range 14).map (fun i => (730120 + i, 2))

/-- 13 consecutive days of sales (2 units each) ending at day 730132. -/
def sampleSales13 : List (ℕ × ℕ) :=
  (List.range 13).map (fun i => (730120 + i, 2))

example : latestSaleDate sampleSales14 = some 730133 := by decide
example : (aggregatedSales sampleSales14 730120 730133).length = 14 := by decide
example : (nonzeroSaleDays sampleSales13 (730132 - 89) 730132).length = 13 := by
  decide
example : quantitySeries sampleSales14 730120 730133 = List.replicate 14 2 := by
  decide
example : rollingMean [4, 2, 3] 7 1 = 3 := by decide
example : lagFeature [4, 2, 3] 1 0 = 0 := by decide
example : lagFeature [4, 2, 3] 1 2 = 2 := by decide

theorem filterMap_ite_length {α β : Type} (l : List α) (c : α → Bool)
    (g : α → β) :
    (l.filterMap (fun d => if c d then some (g d) else none)).length
      = (l.filter c).length := by
  induction l with
  | nil => rfl
  | cons a t ih =>
      by_cases h : c a <;>
        simp [List.filterMap_cons, List.filter_cons, h, ih]

theorem sumQtyOn_pos_iff (events : List (ℕ × ℕ)) (d : ℕ)
    (hpos : ∀ ev ∈ events, 0 < ev.2) :
    0 < sumQtyOn events d ↔ events.any (fun ev => ev.1 = d) = true := by
  unfold sumQtyOn
  constructor
  · intro h
    by_contra hne
    have hnil : events.filter (fun ev => ev.1 = d) = [] := by
      refine List.filter_eq_nil_iff.mpr ?_
      intro ev hev
      intro hd
      exact hne (List.any_eq_true.mpr ⟨ev, hev, hd⟩)
    rw [hnil] at h
    simp at h
  · intro h
    obtain ⟨ev, hev, hd⟩ := List.any_eq_true.mp h
    have hmem : ev ∈ events.filter (fun ev => ev.1 = d) :=
      List.mem_filter.mpr ⟨hev, hd⟩
    have hmem2 : ev.2 ∈ (events.filter (fun ev => ev.1 = d)).map Prod.snd :=
      List.mem_map.mpr ⟨ev, hmem, rfl⟩
    exact lt_of_lt_of_le (hpos ev hev)
      (List.single_le_sum (fun x _ => Nat.zero_le x) _ hmem2)

theorem aggregatedSales_length_eq (events : List (ℕ × ℕ)) (s e : ℕ)
    (hpos : ∀ ev ∈ events, 0 < ev.2) :
    (aggregatedSales events s e).length = (nonzeroSaleDays events s e).length := by
  unfold aggregatedSales nonzeroSaleDays
  rw [filterMap_ite_length]
  congr 1
  refine List.filter_congr ?_
  intro d _
  refine Bool.eq_iff_iff.mpr ?_
  simp only [decide_eq_true_eq]
  exact (sumQtyOn_pos_iff events d hpos).symm

theorem prepare_eq_of_latest (events : List (ℕ × ℕ)) (days e : ℕ)
    (he : latestSaleDate events = some e) :
    prepare_training_data events days =
      if (aggregatedSales events (e - (days - 1)) e).length < 14 then none
      else
        some (((List.range (windowDays (e - (days - 1)) e).length).map
                (featureRow (quantitySeries events (e - (days - 1)) e)
                  (e - (days - 1)))),
              quantitySeries events (e - (days - 1)) e,
              windowDays (e - (days - 1)) e) := by
  unfold prepare_training_data
  rw [he]

/-- C4: with every sale item of positive quantity, the time-series builder
returns no training data exactly when fewer than 14 distinct days of the
window `[anchor - (days-1), anchor]` have nonzero aggregated sales; the
gate counts days with sales, not calendar days. -/
theorem C4_insufficient_history_gate (events : List (ℕ × ℕ)) (days e : ℕ)
    (hpos : ∀ ev ∈ events, 0 < ev.2)
    (he : latestSaleDate events = some e) :
    prepare_training_data events days = none ↔
      (nonzeroSaleDays events (e - (days - 1)) e).length < 14 := by
  rw [prepare_eq_of_latest events days e he]
  rw [aggregatedSales_length_eq events (e - (days - 1)) e hpos]
  by_cases h : (nonzeroSaleDays events (e - (days - 1)) e).length < 14
  · simp [h]
  · simp [h]

/-- C4 witness: 13 distinct sale days fail the gate; 14 succeed. -/
theorem C4_gate_witness :
    prepare_training_data sampleSales13 90 = none ∧
    prepare_training_data sampleSales14 90 ≠ none := by
  constructor
  · exact (C4_insufficient_history_gate sampleSales13 90 730132
      (by decide) (by decide)).mpr (by decide)
  · intro hnone
    exact absurd ((C4_insufficient_history_gate sampleSales14 90 730133
      (by decide) (by decide)).mp hnone) (by decide)

theorem rangeMap_getD {α : Type} (f : ℕ → α) (n i : ℕ) (d : α)
    (hi : i < n) : ((List.range n).map f).getD i d = f i := by
  rw [List.getD_eq_getElem?_getD, List.getElem?_map, List.getElem?_range hi]
  rfl

theorem windowDays_length (s e : ℕ) : (windowDays s e).length = e + 1 - s := by
  unfold windowDays
  simp

theorem windowDays_getD (s e i : ℕ) (hi : i < e + 1 - s) :
    (windowDays s e).getD i 0 = s + i := by
  unfold windowDays
  exact rangeMap_getD _ _ _ _ hi

theorem quantitySeries_length (events : List (ℕ × ℕ)) (s e : ℕ) :
    (quantitySeries events s e).length = e + 1 - s := by
  unfold quantitySeries
  rw [List.length_map, windowDays_length]

theorem quantitySeries_getD (events : List (ℕ × ℕ)) (s e i : ℕ)
    (hi : i < e + 1 - s) :
    (quantitySeries events s e).getD i 0 = sumQtyOn events (s + i) := by
  unfold quantitySeries windowDays
  rw [List.map_map]
  exact rangeMap_getD _ _ _ _ hi

theorem sumQtyOn_eq_zero (events : List (ℕ × ℕ)) (d : ℕ)
    (h : ∀ ev ∈ events, ev.1 ≠ d) : sumQtyOn events d = 0 := by
  unfold sumQtyOn
  have hnil : events.filter (fun ev => ev.1 = d) = [] := by
    refine List.filter_eq_nil_iff.mpr ?_
    intro ev hev
    simpa using h ev hev
  rw [hnil]
  rfl

/-- C5: a successfully built series has exactly `(end - start) + 1` daily
entries, with dates increasing by exactly one calendar day with no gaps;
days absent from the raw sales appear with quantity 0; and the feature
matrix `X` and target `y` have the same length as the series and correspond
to it row for row in date order. -/
theorem C5_gap_filled_series (events : List (ℕ × ℕ)) (days e s : ℕ)
    (X : List (List ℚ)) (y dates : List ℕ)
    (he : latestSaleDate events = some e)
    (hs : s = e - (days - 1))
    (h : prepare_training_data events days = some (X, y, dates)) :
    dates.length = (e - s) + 1 ∧
    X.length = dates.length ∧
    y.length = dates.length ∧
    (∀ i, i < dates.length → dates.getD i 0 = s + i) ∧
    (∀ i, i + 1 < dates.length → dates.getD (i + 1) 0 = dates.getD i 0 + 1) ∧
    (∀ i, i < dates.length → y.getD i 0 = sumQtyOn events (s + i)) ∧
    (∀ i, i < dates.length → (∀ ev ∈ events, ev.1 ≠ s + i) → y.getD i 0 = 0) ∧
    (∀ i, i < dates.length → X.getD i [] = featureRow y s i) := by
  subst hs
  rw [prepare_eq_of_latest events days e he] at h
  by_cases hg : (aggregatedSales events (e - (days - 1)) e).length < 14
  · rw [if_pos hg] at h
    exact absurd h (by simp)
  · rw [if_neg hg] at h
    simp only [Option.some.injEq, Prod.mk.injEq] at h
    obtain ⟨hX, hy, hdates⟩ := h
    subst hX
    subst hy
    subst hdates
    have hse : e - (days - 1) ≤ e := Nat.sub_le e (days - 1)
    have hlen : (windowDays (e - (days - 1)) e).length
        = e + 1 - (e - (days - 1)) := windowDays_length _ _
    refine ⟨by rw [hlen]; omega, ?_, ?_, ?_, ?_, ?_, ?_, ?_⟩
    · simp
    · rw [quantitySeries_length, hlen]
    · intro i hi
      rw [hlen] at hi
      exact windowDays_getD _ _ _ hi
    · intro i hi
      rw [hlen] at hi
      rw [windowDays_getD _ _ _ hi, windowDays_getD _ _ _ (by omega)]
      omega
    · intro i hi
      rw [hlen] at hi
      exact quantitySeries_getD _ _ _ _ hi
    · intro i hi habsent
      rw [hlen] at hi
      rw [quantitySeries_getD _ _ _ _ hi]
      exact sumQtyOn_eq_zero _ _ habsent
    · intro i hi
      rw [hlen] at hi
      exact rangeMap_getD _ _ _ _ (by rw [windowDays_length]; exact hi)

/-- C6: in the built series, `lag_1[i] = quantity[i-1]` (0 at `i = 0`),
`lag_7[i] = quantity[i-7]` (0 for `i < 7`), the rolling-mean columns equal
`rollingMean` of the quantity series at row `i`, and `rollingMean` depends
only on entries at index `≤ i` (no lookahead). -/
theorem C6_features_no_lookahead (events : List (ℕ × ℕ)) (days e : ℕ)
    (X : List (List ℚ)) (y dates : List ℕ)
    (he : latestSaleDate events = some e)
    (h : prepare_training_data events days = some (X, y, dates)) :
    (∀ i, i < y.length →
      (X.getD i []).getD 4 0 = if i = 0 then 0 else (y.getD (i - 1) 0 : ℚ)) ∧
    (∀ i, i < y.length →
      (X.getD i []).getD 5 0 = if i < 7 then 0 else (y.getD (i - 7) 0 : ℚ)) ∧
    (∀ i, i < y.length → (X.getD i []).getD 6 0 = rollingMean y 7 i) ∧
    (∀ i, i < y.length → (X.getD i []).getD 7 0 = rollingMean y 14 i) ∧
    (∀ (q q' : List ℕ) (w j : ℕ), q.take (j + 1) = q'.take (j + 1) →
      rollingMean q w j = rollingMean q' w j) := by
  rw [prepare_eq_of_latest events days e he] at h
  by_cases hg : (aggregatedSales events (e - (days - 1)) e).length < 14
  · rw [if_pos hg] at h
    exact absurd h (by simp)
  · rw [if_neg hg] at h
    simp only [Option.some.injEq, Prod.mk.injEq] at h
    obtain ⟨hX, hy, hdates⟩ := h
    subst hX
    subst hy
    subst hdates
    have hXrow : ∀ i, i < (quantitySeries events (e - (days - 1)) e).length →
        (((List.range (windowDays (e - (days - 1)) e).length).map
            (featureRow (quantitySeries events (e - (days - 1)) e)
              (e - (days - 1)))).getD i [])
          = featureRow (quantitySeries events (e - (days - 1)) e)
              (e - (days - 1)) i := by
      intro i hi
      rw [quantitySeries_length] at hi
      exact rangeMap_getD _ _ _ _ (by rw [windowDays_length]; exact hi)
    refine ⟨?_, ?_, ?_, ?_, ?_⟩
    · intro i hi
      rw [hXrow i hi]
      unfold featureRow lagFeature
      cases i with
      | zero => rfl
      | succ n => simp
    · intro i hi
      rw [hXrow i hi]
      unfold featureRow lagFeature
      by_cases h7 : 7 ≤ i
      · simp [h7, Nat.not_lt.mpr h7]
      · simp [h7, Nat.lt_of_not_le h7]
    · intro i hi
      rw [hXrow i hi]
      rfl
    · intro i hi
      rw [hXrow i hi]
      rfl
    · intro q q' w j hqq
      unfold rollingMean
      rw [hqq]

/-- The builder's output on 14 consecutive sale days with `days = 14`. -/
def samplePrepared : List (List ℚ) × List ℕ × List ℕ :=
  (prepare_training_data sampleSales14 14).getD ([], [], [])

/-- C5 witness: on the concrete 14-day sample, entry 3 of the series is day
730123 with quantity 2, and the series has 14 entries. -/
theorem C5_series_witness :
    samplePrepared.2.2.length = 14 ∧
    samplePrepared.2.2.getD 3 0 = 730123 ∧
    samplePrepared.2.1.getD 3 0 = 2 := by
  obtain ⟨hlen, -, -, hd, -, hy, -, -⟩ :=
    C5_gap_filled_series sampleSales14 14 730133 730120 samplePrepared.1
      samplePrepared.2.1 samplePrepared.2.2 (by decide) (by decide) rfl
  refine ⟨by rw [hlen], ?_, ?_⟩
  · have h3 := hd 3 (by rw [hlen]; decide)
    simpa using h3
  · have h3 := hy 3 (by rw [hlen]; decide)
    rw [h3]
    decide

/-- C6 witness: on the concrete 14-day sample, row 3's `lag_1` equals the
quantity of row 2, and row 0's `lag_1` is 0. -/
theorem C6_features_witness :
    (samplePrepared.1.getD 3 []).getD 4 0 = 2 ∧
    (samplePrepared.1.getD 0 []).getD 4 0 = 0 := by
  obtain ⟨h1, -, -, -, -⟩ :=
    C6_features_no_lookahead sampleSales14 14 730133 samplePrepared.1
      samplePrepared.2.1 samplePrepared.2.2 (by decide) rfl
  constructor
  · rw [h1 3 (by decide)]
    decide
  · rw [h1 0 (by decide)]
    decide

end TimeSeriesBuilder

section Forecaster

/-- The trailing `k` entries of `historical_data` (`historical_data[-k:]`). -/
def lastK (h : List ℤ) (k : ℕ) : List ℤ := h.drop (h.length - k)

/-- `np.mean(historical_data[-k:])`. -/
def meanLastK (h : List ℤ) (k : ℕ) : ℚ :=
  (((lastK h k).map (fun z => (z : ℚ))).sum) / ((lastK h k).length : ℚ)

/-- The 8-feature vector assembled by `ml_utils.predict_demand` for the
forecast day `o`, in source order: calendar features of `o`, then lag and
rolling features from `historical_data` (or the `current_stock / 30`
estimate for all four when no history is passed). -/
def predictFeatures (current_stock : ℕ) (o : ℕ) (hist : List ℤ) : List ℚ :=
  if hist ≠ [] then
    let lag_1 : ℚ := (hist.getD (hist.length - 1) 0 : ℤ)
    let lag_7 : ℚ := if 7 ≤ hist.length then (hist.getD (hist.length - 7) 0 : ℤ) else 0
    let rolling_mean_7 : ℚ := if 7 ≤ hist.length then meanLastK hist 7 else 0
    let rolling_mean_14 : ℚ := if 14 ≤ hist.length then meanLastK hist 14 else 0
    [ (dayOfWeek o : ℚ), ((civilMonthDay o).2 : ℚ), ((civilMonthDay o).1 : ℚ),
      (isWeekendFlag o : ℚ), lag_1, lag_7, rolling_mean_7, rolling_mean_14 ]
  else
    let est : ℚ := (current_stock : ℚ) / 30
    [ (dayOfWeek o : ℚ), ((civilMonthDay o).2 : ℚ), ((civilMonthDay o).1 : ℚ),
      (isWeekendFlag o : ℚ), est, est, est, est ]

/-- `ml_utils.predict_demand(model, scaler, product, forecast_date,
historical_data)`, returning `(prediction, (conf_lower, conf_upper))`.
`predictRaw` is the opaque composition
`model.predict(scaler.transform(features))[0]`; it returns `none` when that
library call raises, which sends the function into its `except` branch
(the `current_stock / 30` fallback). -/
def predict_demand (predictRaw : List ℚ → Option ℚ) (current_stock : ℕ)
    (forecast_date : ℕ) (hist : List ℤ) : ℤ × ℤ × ℤ :=
  match predictRaw (predictFeatures current_stock forecast_date hist) with
  | some raw =>
      let prediction : ℤ := max 0 (truncQ raw)
      let conf_lower : ℤ := max 0 (truncQ ((prediction : ℚ) * (8 / 10)))
      let conf_upper : ℤ := truncQ ((prediction : ℚ) * (12 / 10))
      (prediction, conf_lower, conf_upper)
  | none =>
      let fallback : ℤ := truncQ ((current_stock : ℚ) / 30)
      (fallback,
       truncQ ((fallback : ℚ) * (8 / 10)),
       truncQ ((fallback : ℚ) * (12 / 10)))

/-- One saved/returned forecast point of the generation loop. -/
structure ForecastPoint where
  date : ℕ
  predicted_demand : ℤ
  confidence_lower : ℤ
  confidence_upper : ℤ
deriving DecidableEq, Repr

/-- The forecast loop of `GenerateForecastView.post`: for `i = 1..n`
predict day `last_date + i` from the current `historical_data`, record one
forecast point, then append the prediction to `historical_data` before the
next iteration. -/
def forecastLoop (predictRaw : List ℚ → Option ℚ) (current_stock : ℕ)
    (last_date : ℕ) : ℕ → ℕ → List ℤ → List ForecastPoint
  | _, 0, _ => []
  | i, Nat.succ fuel, hist =>
      let r := predict_demand predictRaw current_stock (last_date + i) hist
      ⟨last_date + i, r.1, r.2.1, r.2.2⟩ ::
        forecastLoop predictRaw current_stock last_date (i + 1) fuel
          (hist ++ [r.1])

/-- The whole `forecast_days`-day generation pass (loop entered at
`i = 1`). -/
def generateForecasts (predictRaw : List ℚ → Option ℚ) (current_stock : ℕ)
    (last_date : ℕ) (hist : List ℤ) (forecast_days : ℕ) : List ForecastPoint :=
  forecastLoop predictRaw current_stock last_date 1 forecast_days hist

theorem forecastLoop_length (pr : List ℚ → Option ℚ) (cs ld : ℕ) :
    ∀ (n i : ℕ) (hist : List ℤ),
      (forecastLoop pr cs ld i n hist).length = n := by
  intro n
  induction n with
  | zero => intro i hist; rfl
  | succ m ih =>
      intro i hist
      unfold forecastLoop
      simp [ih]

theorem forecastLoop_getD (pr : List ℚ → Option ℚ) (cs ld : ℕ) :
    ∀ (n i j : ℕ) (hist : List ℤ), j < n →
      (forecastLoop pr cs ld i n hist).getD j ⟨0, 0, 0, 0⟩ =
        let histj := hist ++
          ((forecastLoop pr cs ld i n hist).take j).map
            (fun q => q.predicted_demand)
        let r := predict_demand pr cs (ld + i + j) histj
        ⟨ld + i + j, r.1, r.2.1, r.2.2⟩ := by
  intro n
  induction n with
  | zero => intro i j hist hj; exact absurd hj (by omega)
  | succ m ih =>
      intro i j hist hj
      cases j with
      | zero =>
          simp only [forecastLoop, List.take_zero, List.map_nil,
            List.append_nil, List.getD_cons_zero, Nat.add_zero]
      | succ k =>
          have hk : k < m := by omega
          have step := ih (i + 1) k
            (hist ++ [(predict_demand pr cs (ld + i) hist).1]) hk
          simp only [forecastLoop, List.getD_cons_succ, List.take_succ_cons,
            List.map_cons, List.cons_append] at *
          rw [step]
          simp only [List.append_assoc, List.singleton_append]
          have harith : ld + (i + 1) + k = ld + i + (k + 1) := by omega
          rw [harith]

theorem lastAppended_getD (hist : List ℤ) (L : List ForecastPoint) (j : ℕ)
    (hj : j < L.length) :
    (hist ++ ((L.take (j + 1)).map (fun q => q.predicted_demand))).getD
        (hist.length + j) 0
      = (L.getD j ⟨0, 0, 0, 0⟩).predicted_demand := by
  rw [List.getD_eq_getElem?_getD,
    List.getElem?_append_right (by omega : hist.length ≤ hist.length + j)]
  have hidx : hist.length + j - hist.length = j := by omega
  rw [hidx, List.getElem?_map, List.getElem?_take, if_pos (by omega : j < j + 1),
    List.getElem?_eq_getElem hj]
  rw [List.getD_eq_getElem?_getD, List.getElem?_eq_getElem hj]
  rfl

/-- C3: the generation loop produces exactly one forecast point per
requested day, with dates strictly increasing by one day starting the day
after the anchor; each day's point is predicted from `historical_data`
extended with all prior predictions (appended after each step), and the
`lag_1` feature used for day `j+2` is day `j+1`'s predicted value. -/
theorem C3_recursive_forecast (pr : List ℚ → Option ℚ) (cs ld : ℕ)
    (hist : List ℤ) (n : ℕ) :
    (generateForecasts pr cs ld hist n).length = n ∧
    (∀ j, j < n →
      ((generateForecasts pr cs ld hist n).getD j ⟨0, 0, 0, 0⟩).date
        = ld + 1 + j) ∧
    (∀ j, j + 1 < n →
      ((generateForecasts pr cs ld hist n).getD (j + 1) ⟨0, 0, 0, 0⟩).date
        = ((generateForecasts pr cs ld hist n).getD j ⟨0, 0, 0, 0⟩).date + 1) ∧
    (∀ j, j < n →
      (generateForecasts pr cs ld hist n).getD j ⟨0, 0, 0, 0⟩ =
        { date := ld + 1 + j
          predicted_demand := (predict_demand pr cs (ld + 1 + j)
            (hist ++ ((generateForecasts pr cs ld hist n).take j).map
              (fun q => q.predicted_demand))).1
          confidence_lower := (predict_demand pr cs (ld + 1 + j)
            (hist ++ ((generateForecasts pr cs ld hist n).take j).map
              (fun q => q.predicted_demand))).2.1
          confidence_upper := (predict_demand pr cs (ld + 1 + j)
            (hist ++ ((generateForecasts pr cs ld hist n).take j).map
              (fun q => q.predicted_demand))).2.2 }) ∧
    (∀ j, j + 1 < n →
      (predictFeatures cs (ld + 1 + (j + 1))
          (hist ++ ((generateForecasts pr cs ld hist n).take (j + 1)).map
            (fun q => q.predicted_demand))).getD 4 0
        = (((generateForecasts pr cs ld hist n).getD j
            ⟨0, 0, 0, 0⟩).predicted_demand : ℚ)) := by
  have hlen : (generateForecasts pr cs ld hist n).length = n :=
    forecastLoop_length pr cs ld n 1 hist
  have hget : ∀ j, j < n →
      (generateForecasts pr cs ld hist n).getD j ⟨0, 0, 0, 0⟩ =
        { date := ld + 1 + j
          predicted_demand := (predict_demand pr cs (ld + 1 + j)
            (hist ++ ((generateForecasts pr cs ld hist n).take j).map
              (fun q => q.predicted_demand))).1
          confidence_lower := (predict_demand pr cs (ld + 1 + j)
            (hist ++ ((generateForecasts pr cs ld hist n).take j).map
              (fun q => q.predicted_demand))).2.1
          confidence_upper := (predict_demand pr cs (ld + 1 + j)
            (hist ++ ((generateForecasts pr cs ld hist n).take j).map
              (fun q => q.predicted_demand))).2.2 } := by
    intro j hj
    exact forecastLoop_getD pr cs ld n 1 j hist hj
  refine ⟨hlen, ?_, ?_, hget, ?_⟩
  · intro j hj
    rw [hget j hj]
  · intro j hj
    rw [hget (j + 1) hj, hget j (by omega)]
    dsimp only
    omega
  · intro j hj
    have hne : hist ++ ((generateForecasts pr cs ld hist n).take (j + 1)).map
        (fun q => q.predicted_demand) ≠ [] := by
      intro hcon
      have htk : ((generateForecasts pr cs ld hist n).take (j + 1)).length
          = j + 1 := by
        rw [List.length_take, hlen]
        omega
      have hl := congrArg List.length hcon
      rw [List.length_append, List.length_map, htk] at hl
      simp only [List.length_nil] at hl
      omega
    unfold predictFeatures
    rw [if_pos hne]
    simp only [List.getD_cons_succ, List.getD_cons_zero]
    have hlist : (hist ++ ((generateForecasts pr cs ld hist n).take
        (j + 1)).map (fun q => q.predicted_demand)).length
          = hist.length + (j + 1) := by
      rw [List.length_append, List.length_map, List.length_take, hlen]
      omega
    rw [hlist]
    have hidx : hist.length + (j + 1) - 1 = hist.length + j := by omega
    rw [hidx, lastAppended_getD hist _ j (by omega)]

/-- A demonstration model for the C3 witness: it predicts
`lag_1 + 1`, so each forecast day's prediction visibly feeds the next
day's `lag_1`. -/
def demoPredict : List ℚ → Option ℚ := fun f => some (f.getD 4 0 + 1)

/-- C3 witness: with `demoPredict`, anchor day 100 and history `[5]`, the
three forecast points have consecutive dates 101, 102, 103 and predictions
6, 7, 8 — each obtained from the previous prediction via `lag_1`. -/
theorem C3_recursive_forecast_witness :
    (generateForecasts demoPredict 60 100 [5] 3).length = 3 ∧
    ((generateForecasts demoPredict 60 100 [5] 3).getD 1 ⟨0, 0, 0, 0⟩).date
      = 100 + 1 + 1 ∧
    (predictFeatures 60 (100 + 1 + (1 + 1))
        ([5] ++ ((generateForecasts demoPredict 60 100 [5] 3).take (1 + 1)).map
          (fun q => q.predicted_demand))).getD 4 0
      = (((generateForecasts demoPredict 60 100 [5] 3).getD 1
          ⟨0, 0, 0, 0⟩).predicted_demand : ℚ) ∧
    (generateForecasts demoPredict 60 100 [5] 3).getD 1 ⟨0, 0, 0, 0⟩
      = ⟨102, 7, 5, 8⟩ := by
  obtain ⟨h1, h2, -, -, h5⟩ := C3_recursive_forecast demoPredict 60 100 [5] 3
  exact ⟨h1, h2 1 (by decide), h5 1 (by decide), by decide⟩

theorem truncQ_nonneg {q : ℚ} (h : 0 ≤ q) : 0 ≤ truncQ q := by
  rw [truncQ_of_nonneg h]
  exact Int.floor_nonneg.mpr h

theorem truncQ_mono_of_nonneg {a b : ℚ} (ha : 0 ≤ a) (hab : a ≤ b) :
    truncQ a ≤ truncQ b := by
  rw [truncQ_of_nonneg ha, truncQ_of_nonneg (le_trans ha hab)]
  exact Int.floor_le_floor hab

/-- C8 counterexample: a model whose raw output is 3.7 yields
`predicted_demand = 3` (the code truncates with `int()`), while the claimed
`max(0, round(raw))` is 4. -/
theorem C8_round_counterexample :
    (predict_demand (fun _ => some (37 / 10)) 0 1 []).1 = 3 ∧
    max 0 (round ((37 : ℚ) / 10)) = (4 : ℤ) := by
  constructor
  · decide
  · decide

/-- C8 (amended): every predicted point satisfies `predicted_demand ≥ 0`,
`confidence_lower ≥ 0` and `confidence_lower ≤ confidence_upper`, and on a
successful model call with raw output `raw` the point prediction is
`max 0 (trunc raw)` (truncation toward zero, not rounding) with band
`[max 0 (trunc(0.8 × predicted)), trunc(1.2 × predicted)]`. -/
theorem C8_clamp_and_band_amended (pr : List ℚ → Option ℚ) (cs o : ℕ)
    (hist : List ℤ) :
    0 ≤ (predict_demand pr cs o hist).1 ∧
    0 ≤ (predict_demand pr cs o hist).2.1 ∧
    (predict_demand pr cs o hist).2.1 ≤ (predict_demand pr cs o hist).2.2 ∧
    (∀ raw, pr (predictFeatures cs o hist) = some raw →
      (predict_demand pr cs o hist).1 = max 0 (truncQ raw) ∧
      (predict_demand pr cs o hist).2.1
        = max 0 (truncQ (((predict_demand pr cs o hist).1 : ℚ) * (8 / 10))) ∧
      (predict_demand pr cs o hist).2.2
        = truncQ (((predict_demand pr cs o hist).1 : ℚ) * (12 / 10))) := by
  unfold predict_demand
  cases hpr : pr (predictFeatures cs o hist) with
  | some raw =>
      simp only
      have hp : (0 : ℤ) ≤ max 0 (truncQ raw) := le_max_left 0 _
      have hpq : (0 : ℚ) ≤ ((max 0 (truncQ raw) : ℤ) : ℚ) := by exact_mod_cast hp
      have hlow : (0 : ℚ) ≤ ((max 0 (truncQ raw) : ℤ) : ℚ) * (8 / 10) := by
        positivity
      have hupnn : (0 : ℚ) ≤ ((max 0 (truncQ raw) : ℤ) : ℚ) * (12 / 10) := by
        positivity
      refine ⟨hp, le_max_left 0 _, ?_, ?_⟩
      · refine max_le ?_ ?_
        · exact truncQ_nonneg hupnn
        · exact truncQ_mono_of_nonneg hlow (by nlinarith)
      · intro raw' hraw'
        injection hraw' with hh
        subst hh
        exact ⟨rfl, trivial, trivial⟩
  | none =>
      simp only
      have hfb : (0 : ℤ) ≤ truncQ ((cs : ℚ) / 30) :=
        truncQ_nonneg (by positivity)
      have hfbq : (0 : ℚ) ≤ ((truncQ ((cs : ℚ) / 30) : ℤ) : ℚ) := by
        exact_mod_cast hfb
      refine ⟨hfb, truncQ_nonneg (by positivity), ?_, ?_⟩
      · exact truncQ_mono_of_nonneg (by positivity) (by nlinarith)
      · intro raw' hraw'
        exact Option.noConfusion hraw'

/-- C8 witness: with a model returning 3.7 the amended formulas evaluate to
`predicted = 3`, band `[2, 3]`. -/
theorem C8_clamp_witness :
    (predict_demand (fun _ => some (37 / 10)) 0 1 []).1
      = max 0 (truncQ (37 / 10)) ∧
    0 ≤ (predict_demand (fun _ => some (37 / 10)) 0 1 []).2.1 ∧
    (predict_demand (fun _ => some (37 / 10)) 0 1 []).2.1
      ≤ (predict_demand (fun _ => some (37 / 10)) 0 1 []).2.2 := by
  obtain ⟨-, h2, h3, h4⟩ :=
    C8_clamp_and_band_amended (fun _ => some (37 / 10)) 0 1 []
  exact ⟨(h4 (37 / 10) rfl).1, h2, h3⟩

/-- C9 counterexample: with a failing prediction step and
`current_stock = 99` the fallback is 3, but the stored lower band is
`int(3 * 0.8) = 2`, not the claimed `0.8 × 3 = 2.4` — the band bounds are
truncated integers, not the exact `0.8×`/`1.2×` products. -/
theorem C9_band_counterexample :
    (predict_demand (fun _ => none) 99 1 []).1 = 3 ∧
    (predict_demand (fun _ => none) 99 1 []).2.1 = 2 ∧
    ((2 : ℚ) ≠ (8 / 10) * 3) := by
  refine ⟨by decide, by decide, by decide⟩

/-- C9 (amended): when the prediction step fails, `predict_demand` returns
the deterministic fallback `floor(current_stock / 30)` with band
`[trunc(0.8 × fallback), trunc(1.2 × fallback)]`; the result depends only
on `current_stock`, so repeated failing runs (any date, any history) give
the identical point, and every requested day still yields a point. -/
theorem C9_fallback_amended (pr : List ℚ → Option ℚ) (cs o : ℕ)
    (hist : List ℤ)
    (h : pr (predictFeatures cs o hist) = none) :
    predict_demand pr cs o hist =
      (truncQ ((cs : ℚ) / 30),
       truncQ ((truncQ ((cs : ℚ) / 30) : ℚ) * (8 / 10)),
       truncQ ((truncQ ((cs : ℚ) / 30) : ℚ) * (12 / 10))) ∧
    (∀ (o' : ℕ) (hist' : List ℤ), pr (predictFeatures cs o' hist') = none →
      predict_demand pr cs o' hist' = predict_demand pr cs o hist) := by
  have hval : ∀ (o' : ℕ) (hist' : List ℤ),
      pr (predictFeatures cs o' hist') = none →
      predict_demand pr cs o' hist' =
        (truncQ ((cs : ℚ) / 30),
         truncQ ((truncQ ((cs : ℚ) / 30) : ℚ) * (8 / 10)),
         truncQ ((truncQ ((cs : ℚ) / 30) : ℚ) * (12 / 10))) := by
    intro o' hist' h'
    unfold predict_demand
    rw [h']
  refine ⟨hval o hist h, ?_⟩
  intro o' hist' h'
  rw [hval o' hist' h', hval o hist h]

/-- C9 witness: with an always-failing model and `current_stock = 90` the
fallback point is `(3, 2, 3)` regardless of date or history. -/
theorem C9_fallback_witness :
    predict_demand (fun _ => none) 90 5 [2] =
      (truncQ ((90 : ℚ) / 30),
       truncQ ((truncQ ((90 : ℚ) / 30) : ℚ) * (8 / 10)),
       truncQ ((truncQ ((90 : ℚ) / 30) : ℚ) * (12 / 10))) ∧
    predict_demand (fun _ => none) 90 77 [] =
      predict_demand (fun _ => none) 90 5 [2] := by
  obtain ⟨h1, h2⟩ := C9_fallback_amended (fun _ => none) 90 5 [2] rfl
  exact ⟨h1, h2 77 [] rfl⟩

end Forecaster

section ModelTrainer

/-- Artifacts of one run of `ml_utils.train_linear_regression_model`:
the chronological train/test split, the fitted scaler (`σ`), the scaled
feature sets, the fitted regressor (`μ`), and its test-set predictions
(the inputs of the evaluation metrics, which are opaque sklearn
numerics). -/
structure TrainResult (σ μ : Type) where
  XTrain : List (List ℚ)
  XTest : List (List ℚ)
  yTrain : List ℕ
  yTest : List ℕ
  scaler : σ
  XTrainScaled : List (List ℚ)
  XTestScaled : List (List ℚ)
  model : μ
  yPred : List ℚ

/-- The split / scale / fit / predict core of
`ml_utils.train_linear_regression_model` applied to the prepared `(X, y)`
series.  `split_index = int(len(X) * 0.8)` equals `⌊4·N/5⌋` exactly (IEEE
`0.8` is slightly above 4/5, and truncation keeps the product below the
next integer for every in-range `N`).  `fitScaler`/`transform` embed
`StandardScaler().fit` / `.transform`; `fitModel`/`predictModel` embed
`LinearRegression().fit` / `.predict`. -/
def trainOnSeries {σ μ : Type} (fitScaler : List (List ℚ) → σ)
    (transform : σ → List ℚ → List ℚ)
    (fitModel : List (List ℚ) → List ℕ → μ)
    (predictModel : μ → List (List ℚ) → List ℚ)
    (X : List (List ℚ)) (y : List ℕ) : TrainResult σ μ :=
  let split_index := (4 * X.length) / 5
  let X_train := X.take split_index
  let X_test := X.drop split_index
  let y_train := y.take split_index
  let y_test := y.drop split_index
  let scaler := fitScaler X_train
  let X_train_scaled := X_train.map (transform scaler)
  let X_test_scaled := X_test.map (transform scaler)
  let model := fitModel X_train_scaled y_train
  { XTrain := X_train
    XTest := X_test
    yTrain := y_train
    yTest := y_test
    scaler := scaler
    XTrainScaled := X_train_scaled
    XTestScaled := X_test_scaled
    model := model
    yPred := predictModel model X_test_scaled }

/-- `ml_utils.train_linear_regression_model(product, days)`: prepare the
series, re-check the 14-row floor, then split/scale/fit. -/
def train_linear_regression_model {σ μ : Type}
    (fitScaler : List (List ℚ) → σ) (transform : σ → List ℚ → List ℚ)
    (fitModel : List (List ℚ) → List ℕ → μ)
    (predictModel : μ → List (List ℚ) → List ℚ)
    (events : List (ℕ × ℕ)) (days : ℕ) : Option (TrainResult σ μ) :=
  match prepare_training_data events days with
  | none => none
  | some (X, y, _dates) =>
      if X.length < 14 then none
      else some (trainOnSeries fitScaler transform fitModel predictModel X y)

theorem floor_eight_tenths (N : ℕ) :
    (((4 * N) / 5 : ℕ) : ℤ) = ⌊((8 : ℚ) / 10) * (N : ℚ)⌋ := by
  have h1 : 5 * ((4 * N) / 5) ≤ 4 * N := by omega
  have h2 : 4 * N < 5 * ((4 * N) / 5 + 1) := by omega
  have h1q : (5 : ℚ) * (((4 * N) / 5 : ℕ) : ℚ) ≤ (4 : ℚ) * (N : ℚ) := by
    exact_mod_cast h1
  have h2q : (4 : ℚ) * (N : ℚ) < (5 : ℚ) * ((((4 * N) / 5 : ℕ) : ℚ) + 1) := by
    exact_mod_cast h2
  symm
  rw [Int.floor_eq_iff]
  constructor
  · have hle : (((4 * N) / 5 : ℕ) : ℚ) ≤ (8 : ℚ) / 10 * (N : ℚ) := by linarith
    exact_mod_cast hle
  · have hlt : (8 : ℚ) / 10 * (N : ℚ) < (((4 * N) / 5 : ℕ) : ℚ) + 1 := by linarith
    exact_mod_cast hlt

/-- C7: the trainer's training subset is exactly the first
`floor(0.8 · N)` rows of the series in date order and the evaluation subset
is the remaining rows with no shuffling (their concatenation is the
original series, and evaluation row `j` is series row `split + j`), and the
feature scaler is fit only on the training subset and that same scaler is
applied to the evaluation subset. -/
theorem C7_chronological_split {σ μ : Type} (fitScaler : List (List ℚ) → σ)
    (transform : σ → List ℚ → List ℚ)
    (fitModel : List (List ℚ) → List ℕ → μ)
    (predictModel : μ → List (List ℚ) → List ℚ)
    (X : List (List ℚ)) (y : List ℕ) :
    (trainOnSeries fitScaler transform fitModel predictModel X y).XTrain = X.take ((4 * X.length) / 5) ∧
    (trainOnSeries fitScaler transform fitModel predictModel X y).XTest = X.drop ((4 * X.length) / 5) ∧
    (trainOnSeries fitScaler transform fitModel predictModel X y).yTrain = y.take ((4 * X.length) / 5) ∧
    (trainOnSeries fitScaler transform fitModel predictModel X y).yTest = y.drop ((4 * X.length) / 5) ∧
    (trainOnSeries fitScaler transform fitModel predictModel X y).XTrain ++ (trainOnSeries fitScaler transform fitModel predictModel X y).XTest = X ∧
    (trainOnSeries fitScaler transform fitModel predictModel X y).yTrain ++ (trainOnSeries fitScaler transform fitModel predictModel X y).yTest = y ∧
    (((4 * X.length) / 5 : ℕ) : ℤ) = ⌊((8 : ℚ) / 10) * (X.length : ℚ)⌋ ∧
    (∀ i, i < (trainOnSeries fitScaler transform fitModel predictModel X y).XTrain.length →
      (trainOnSeries fitScaler transform fitModel predictModel X y).XTrain.getD i [] = X.getD i []) ∧
    (∀ j, j < (trainOnSeries fitScaler transform fitModel predictModel X y).XTest.length →
      (trainOnSeries fitScaler transform fitModel predictModel X y).XTest.getD j [] = X.getD ((4 * X.length) / 5 + j) []) ∧
    (trainOnSeries fitScaler transform fitModel predictModel X y).scaler = fitScaler (trainOnSeries fitScaler transform fitModel predictModel X y).XTrain ∧
    (trainOnSeries fitScaler transform fitModel predictModel X y).XTrainScaled
      = (trainOnSeries fitScaler transform fitModel predictModel X y).XTrain.map (transform (fitScaler (trainOnSeries fitScaler transform fitModel predictModel X y).XTrain)) ∧
    (trainOnSeries fitScaler transform fitModel predictModel X y).XTestScaled
      = (trainOnSeries fitScaler transform fitModel predictModel X y).XTest.map (transform (fitScaler (trainOnSeries fitScaler transform fitModel predictModel X y).XTrain)) ∧
    (trainOnSeries fitScaler transform fitModel predictModel X y).model
      = fitModel (trainOnSeries fitScaler transform fitModel predictModel X y).XTrainScaled (trainOnSeries fitScaler transform fitModel predictModel X y).yTrain ∧
    (trainOnSeries fitScaler transform fitModel predictModel X y).yPred
      = predictModel (trainOnSeries fitScaler transform fitModel predictModel X y).model (trainOnSeries fitScaler transform fitModel predictModel X y).XTestScaled := by
  refine ⟨rfl, rfl, rfl, rfl, List.take_append_drop _ X,
    List.take_append_drop _ y, floor_eight_tenths X.length, ?_, ?_,
    rfl, rfl, rfl, rfl, rfl⟩
  · intro i hi
    have hi2 : i < (X.take ((4 * X.length) / 5)).length := hi
    rw [List.length_take] at hi2
    have hi' : i < (4 * X.length) / 5 := lt_of_lt_of_le hi2 (min_le_left _ _)
    show (X.take ((4 * X.length) / 5)).getD i [] = X.getD i []
    rw [List.getD_eq_getElem?_getD, List.getElem?_take, if_pos hi',
      List.getD_eq_getElem?_getD]
  · intro j hj
    show (X.drop ((4 * X.length) / 5)).getD j [] = X.getD ((4 * X.length) / 5 + j) []
    rw [List.getD_eq_getElem?_getD, List.getElem?_drop,
      List.getD_eq_getElem?_getD]

/-- C7 witness: on a 5-row series the training subset is the first 4 rows,
the evaluation subset is row 5, and the evaluation rows are scaled with
the scaler fit on the training rows only. -/
theorem C7_split_witness :
    (trainOnSeries (fun rows => [(rows.length : ℚ)])
        (fun sc r => r ++ sc) (fun _ ys => (ys.sum : ℚ))
        (fun c rows => rows.map (fun _ => c))
        [[1], [2], [3], [4], [5]] [1, 2, 3, 4, 5]).XTrain
      = [[1], [2], [3], [4]] ∧
    (trainOnSeries (fun rows => [(rows.length : ℚ)])
        (fun sc r => r ++ sc) (fun _ ys => (ys.sum : ℚ))
        (fun c rows => rows.map (fun _ => c))
        [[1], [2], [3], [4], [5]] [1, 2, 3, 4, 5]).XTest.getD 0 []
      = [[1], [2], [3], [4], [5]].getD (4 * 5 / 5 + 0) [] ∧
    (trainOnSeries (fun rows => [(rows.length : ℚ)])
        (fun sc r => r ++ sc) (fun _ ys => (ys.sum : ℚ))
        (fun c rows => rows.map (fun _ => c))
        [[1], [2], [3], [4], [5]] [1, 2, 3, 4, 5]).XTestScaled
      = [[(5 : ℚ), 4]] := by
  obtain ⟨h1, -, -, -, -, -, -, -, h9, -, -, h12, -, -⟩ :=
    C7_chronological_split (fun rows => ([(rows.length : ℚ)] : List ℚ))
      (fun sc r => r ++ sc) (fun _ ys => ((ys.sum : ℕ) : ℚ))
      (fun c rows => rows.map (fun _ => c))
      [[1], [2], [3], [4], [5]] [1, 2, 3, 4, 5]
  refine ⟨by rw [h1]; decide, ?_, by rw [h12, h1]; decide⟩
  have h := h9 0 (by decide)
  rw [h]
  decide

end ModelTrainer

end BelleShop
